import Mathlib

/-!
Shallow embedding of `claude-auth-proxy.py` (a credential-injecting reverse
proxy) and proofs about the claims of its specification.

Modeling conventions:
* Python `str` values (header names, header values, tokens, bodies) are
  `List Char`.
* The inbound header dictionary `dict(self.headers)` is an association list
  whose keys keep the casing the client sent; Python `dict` operations
  (`pop`, item assignment) are modeled exactly-cased, as in the source.
* `json.loads` output is modeled by an inductive `Json` value; the external
  credential process is modeled by the data the code actually inspects:
  whether `subprocess.run` raised, the return code, whether stdout is
  non-empty, and the parse outcome of stdout.
* The two upstream `urlopen` calls are modeled by oracle outcomes in the
  environment: an HTTP response (any status) or a transport failure.
  `urlopen` returns normally for 2xx statuses and raises `HTTPError`
  otherwise, per its documented behavior (redirect handling is out of scope
  of the claims).
* Exceptions that the source catches are modeled by the branch the handler
  takes; an exception the source does not catch is the `Outcome.crash`
  result.
-/

namespace ClaudeAuthProxy

abbrev Str := List Char

abbrev Headers := List (Str × Str)

/-- Python list/str prefix test used to implement substring search. -/
def isPre : Str → Str → Bool
  | [], _ => true
  | _ :: _, [] => false
  | a :: as, b :: bs => a == b && isPre as bs

/-- Python `needle in hay` for strings: substring containment. -/
def containsSub (nd : Str) : Str → Bool
  | [] => isPre nd []
  | c :: t => isPre nd (c :: t) || containsSub nd t

/-- One scanning pass of Python `str.replace(old, new)`: at each position,
if `old` (non-empty) matches, emit `new` and skip `old.length` characters,
else emit the character and advance.  The fuel argument bounds the number of
steps; `replaceAll` supplies `s.length`, which suffices because each step
consumes at least one character of the scanned string. -/
def replaceAllFuel (old new : Str) : Nat → Str → Str
  | 0, s => s
  | _ + 1, [] => []
  | f + 1, c :: t =>
    if !old.isEmpty && isPre old (c :: t) then
      new ++ replaceAllFuel old new f (List.drop old.length (c :: t))
    else
      c :: replaceAllFuel old new f t

/-- Python `s.replace(old, new)` (for the non-empty `old` values the proxy
uses). -/
def replaceAll (old new s : Str) : Str :=
  replaceAllFuel old new s.length s

/-- The fixed placeholder token compiled into the proxy (`DUMMY_TOKENS[0]`). -/
def DUMMY : Str :=
  ("sk-ant-REDACTED").data

/-- `DUMMY_TOKENS`: the process-wide, read-only placeholder list. -/
def DUMMY_TOKENS : List Str := [DUMMY]

/-- One iteration of the inner substitution loop (lines 79-85 of the source)
for a single header value: for each dummy token, if it occurs in the current
value, replace all its occurrences with the real token and record that a
substitution happened. -/
def substDummies (real v : Str) : Str × Bool :=
  DUMMY_TOKENS.foldl
    (fun acc d => if containsSub d acc.1 then (replaceAll d real acc.1, true) else acc)
    (v, false)

/-- One step of the outer substitution loop over the header items: store the
rewritten value back under the same key and accumulate the global
`token_replaced` flag. -/
def substStep (real : Str) (acc : Headers × Bool) (nv : Str × Str) : Headers × Bool :=
  (acc.1 ++ [(nv.1, (substDummies real nv.2).1)], acc.2 || (substDummies real nv.2).2)

/-- The Token Substitution Engine: the loop of lines 78-85 of
`handle_request`.  Returns the rewritten headers and the `token_replaced`
flag. -/
def substituteHeaders (real : Str) (hs : Headers) : Headers × Bool :=
  hs.foldl (substStep real) ([], false)

/-- Whether some header value contains some dummy token. -/
def anyDummyIn (hs : Headers) : Bool :=
  hs.any (fun nv => DUMMY_TOKENS.any (fun d => containsSub d nv.2))

/- ### The Credential Source adapter (`get_real_oauth_token`, lines 28-51) -/

/-- A parsed JSON value, as produced by `json.loads` (numbers restricted to
integers; object member lists are key-unique as Python dicts are). -/
inductive Json where
  | null
  | bool (b : Bool)
  | num (n : Int)
  | str (s : Str)
  | arr (elems : List Json)
  | obj (members : List (Str × Json))

/-- Python truthiness of a JSON-derived value. -/
def jsonTruthy : Json → Bool
  | .null => false
  | .bool b => b
  | .num n => n != 0
  | .str s => !s.isEmpty
  | .arr xs => !xs.isEmpty
  | .obj ms => !ms.isEmpty

/-- Dictionary lookup on a parsed JSON object. -/
def lookupMember (ms : List (Str × Json)) (k : Str) : Option Json :=
  match ms with
  | [] => none
  | (k2, v) :: t => if k2 == k then some v else lookupMember t k

/-- The pattern `if k in j: x = j[k]` on a JSON-derived Python value.
`Except.error` is the `TypeError` that Python raises when `j` is a string or
list (the `in` test succeeds as substring/membership but the string index
then fails) or when `j` does not support `in` at all; `.ok none` means the
`in` test was false; `.ok (some v)` is the looked-up member. -/
def pyGetMember (j : Json) (k : Str) : Except Unit (Option Json) :=
  match j with
  | .obj ms => .ok (lookupMember ms k)
  | .str s => if containsSub k s then .error () else .ok none
  | .arr xs =>
    if xs.any (fun e => match e with | .str s2 => s2 == k | _ => false) then
      .error ()
    else .ok none
  | _ => .error ()

/-- What the code observes of `subprocess.run(["get-claude-credentials.sh"], ...)`:
either the call raised (timeout, missing executable, ...), or it ran with
some return code, some stdout (only its non-emptiness is inspected before
parsing), and a parse outcome for `json.loads(stdout.strip())`
(`Except.error` is `json.JSONDecodeError`). -/
inductive SubprocBehavior where
  | timeout
  | ran (returncode : Int) (stdoutNonempty : Bool) (parsed : Except Unit Json)

/-- `get_real_oauth_token` (lines 28-51): runs the credential process, parses
its output, and extracts `creds["claudeAiOauth"]["accessToken"]`.  Every
exception (`subprocess` failure, `json.JSONDecodeError`, `TypeError` from the
member accesses) is caught and collapses to `none`, as do a non-zero exit,
empty output, and missing fields. -/
def get_real_oauth_token (b : SubprocBehavior) : Option Json :=
  match b with
  | .timeout => none
  | .ran rc ne parsed =>
    if rc == 0 && ne then
      match parsed with
      | .error _ => none
      | .ok creds =>
        match pyGetMember creds ("claudeAiOauth").data with
        | .error _ => none
        | .ok none => none
        | .ok (some oauth) =>
          match pyGetMember oauth ("accessToken").data with
          | .error _ => none
          | .ok none => none
          | .ok (some v) => some v
    else none

end ClaudeAuthProxy

namespace ClaudeAuthProxy

/- ### Lemmas about the string machinery -/

theorem isPre_nil (s : Str) : isPre [] s = true := by
  cases s <;> rfl

theorem containsSub_nil_left (s : Str) : containsSub [] s = true := by
  cases s <;> simp [containsSub, isPre_nil]

/-- If `old` does not occur in `s`, a replacement pass leaves `s` unchanged
(for any amount of fuel). -/
theorem replaceAllFuel_of_not_contains (old new : Str) :
    ∀ (f : Nat) (s : Str), containsSub old s = false →
      replaceAllFuel old new f s = s := by
  intro f
  induction f with
  | zero => intro s _; rfl
  | succ f ih =>
    intro s h
    cases s with
    | nil => rfl
    | cons c t =>
      simp only [containsSub, Bool.or_eq_false_iff] at h
      simp [replaceAllFuel, h.1, ih t h.2]

theorem replaceAll_of_not_contains (old new s : Str)
    (h : containsSub old s = false) : replaceAll old new s = s :=
  replaceAllFuel_of_not_contains old new s.length s h

theorem substDummies_snd (real v : Str) :
    (substDummies real v).2 = containsSub DUMMY v := by
  by_cases h : containsSub DUMMY v = true <;>
    simp [substDummies, DUMMY_TOKENS, h]

theorem substDummies_fst (real v : Str) :
    (substDummies real v).1 = replaceAll DUMMY real v := by
  by_cases h : containsSub DUMMY v = true
  · simp [substDummies, DUMMY_TOKENS, h]
  · simp only [Bool.not_eq_true] at h
    simp [substDummies, DUMMY_TOKENS, h, replaceAll_of_not_contains _ _ _ h]

theorem substituteHeaders_go (real : Str) :
    ∀ (hs : Headers) (acc : Headers) (flag : Bool),
      List.foldl (substStep real) (acc, flag) hs =
        (acc ++ hs.map (fun nv => (nv.1, replaceAll DUMMY real nv.2)),
          flag || hs.any (fun nv => containsSub DUMMY nv.2)) := by
  intro hs
  induction hs with
  | nil => intro acc flag; simp
  | cons nv t ih =>
    intro acc flag
    simp only [List.foldl_cons, substStep, ih, List.map_cons, List.any_cons]
    rw [substDummies_fst, substDummies_snd]
    simp [Bool.or_assoc]

theorem substituteHeaders_fst (real : Str) (hs : Headers) :
    (substituteHeaders real hs).1 =
      hs.map (fun nv => (nv.1, replaceAll DUMMY real nv.2)) := by
  simp [substituteHeaders, substituteHeaders_go]

theorem substituteHeaders_snd (real : Str) (hs : Headers) :
    (substituteHeaders real hs).2 = anyDummyIn hs := by
  simp [substituteHeaders, substituteHeaders_go, anyDummyIn, DUMMY_TOKENS]

/- ### The request-handling flow (`handle_request`, lines 65-160) -/

/-- `headers.pop(k, None)` on the header dictionary: remove the entry whose
key is exactly (case-sensitively) `k`. -/
def popKey (k : Str) (hs : Headers) : Headers :=
  hs.filter (fun nv => nv.1 != k)

/-- `headers[k] = v` on the header dictionary: replace the value of the
existing exactly-matching key in place, else append a new entry. -/
def setKey (k v : Str) : Headers → Headers
  | [] => [(k, v)]
  | nv :: t => if nv.1 == k then (k, v) :: t else nv :: setKey k v t

/-- The header fixups of lines 92-94: drop `Content-Length` and `Connection`
and overwrite `Host`. -/
def fixHeaders (hs : Headers) : Headers :=
  setKey ("Host").data ("api.anthropic.com").data
    (popKey ("Connection").data (popKey ("Content-Length").data hs))

/-- ASCII lowering, as `str.lower()` acts on HTTP header names. -/
def lowerChar (c : Char) : Char :=
  if ('A' ≤ c && c ≤ 'Z') then Char.ofNat (c.toNat + 32) else c

def lowerStr (s : Str) : Str := s.map lowerChar

/-- The relay filter `key.lower() not in ["connection", "transfer-encoding"]`
applied to one response header. -/
def keyClean (nv : Str × Str) : Bool :=
  (lowerStr nv.1 != ("connection").data) &&
    (lowerStr nv.1 != ("transfer-encoding").data)

/-- Hop-by-hop stripping of a relayed upstream response (lines 100-102,
135-140, 153-155). -/
def stripHopByHop (hs : Headers) : Headers :=
  hs.filter keyClean

/-- `urllib.request.urlopen` returns normally exactly for 2xx statuses and
raises `urllib.error.HTTPError` otherwise. -/
def is2xx (s : Nat) : Bool :=
  decide (200 ≤ s) && decide (s < 300)

/-- Outcome of one upstream `urlopen` call, as observed by the handler:
an HTTP response (of any status) or a transport-level failure
(`URLError`, timeout, ...). -/
inductive UpstreamOutcome where
  | http (status : Nat) (respHeaders : Headers) (body : Str)
  | transport
deriving DecidableEq

/-- An outbound request actually handed to `urllib.request.Request`. -/
structure OutboundRequest where
  method : Str
  path : Str
  reqHeaders : Headers
  body : Str
deriving DecidableEq

/-- The environment of one client request: the inbound request plus the
behavior of the external collaborators for the at most two credential
fetches, the single refresher invocation, and the at most two upstream
calls.  (Body framing from `Content-Length` is abstracted: `inBody` is the
body as read.) -/
structure Env where
  method : Str
  path : Str
  inHeaders : Headers
  inBody : Str
  fetch1 : SubprocBehavior
  refreshRaises : Bool
  fetch2 : SubprocBehavior
  upstream1 : UpstreamOutcome
  upstream2 : UpstreamOutcome

/-- What the handler does to the client connection: a response (the headers
listed are the ones the handler relays explicitly; the `Server`, `Date` and
error-page headers that `BaseHTTPRequestHandler` adds on its own are
elided), or an uncaught exception escaping `handle_request` (no response). -/
inductive Outcome where
  | reply (status : Nat) (outHeaders : Headers) (body : Str)
  | crash
deriving DecidableEq

def Outcome.statusOf : Outcome → Option Nat
  | .reply s _ _ => some s
  | .crash => none

def Outcome.headersOf : Outcome → Headers
  | .reply _ h _ => h
  | .crash => []

/-- Result of one `handle_request` invocation: the client-visible outcome,
the outbound requests given to `urlopen` in order, and the number of
Credential Refresher invocations. -/
structure Result where
  outcome : Outcome
  forwarded : List OutboundRequest
  refreshCalls : Nat
deriving DecidableEq

def errNoCreds : Str := ("No credentials found").data

def errNoDummy : Str := ("No dummy tokens found to replace").data

def errBadGateway : Str := ("Bad Gateway").data

/-- One value of the retry substitution loop (lines 120-125).  Note the
source tests `real_token in value` (not the dummy) inside the loop over
`DUMMY_TOKENS`, replacing the first real token by the fresh one. -/
def retrySubValue (real fresh v : Str) : Str :=
  DUMMY_TOKENS.foldl
    (fun acc _d => if containsSub real acc then replaceAll real fresh acc else acc) v

def retrySub (real fresh : Str) (hs : Headers) : Headers :=
  hs.map (fun nv => (nv.1, retrySubValue real fresh nv.2))

/-- Relaying the first attempt's 401 `HTTPError` (lines 149-157): its
status, hop-by-hop-stripped headers, and body go back to the client. -/
def relayFirst (h1 : Headers) (b1 : Str) (fwd : List OutboundRequest) : Result :=
  ⟨.reply 401 (stripHopByHop h1) b1, fwd, 1⟩

/-- The second `urlopen` (lines 128-143): a 2xx retry response is relayed
and becomes the outcome; an `HTTPError` or transport error raised by the
retry is swallowed by the `except Exception: pass` of line 145 and the
first attempt's 401 response is relayed instead. -/
def doRetry (env : Env) (hs3 : Headers) (req1 : OutboundRequest)
    (h1 : Headers) (b1 : Str) : Result :=
  let req2 : OutboundRequest := ⟨env.method, env.path, hs3, env.inBody⟩
  match env.upstream2 with
  | .transport => relayFirst h1 b1 [req1, req2]
  | .http s2 h2 b2 =>
    if is2xx s2 then ⟨.reply s2 (stripHopByHop h2) b2, [req1, req2], 1⟩
    else relayFirst h1 b1 [req1, req2]

/-- The 401 branch (lines 108-146): invoke the refresher, re-fetch, and —
only if the fresh token is truthy and differs from the first token — retry.
A refresher exception, an unavailable/falsy fresh token, or a fresh token
equal to the first all fall through to relaying the first 401.  A truthy
non-string fresh token raises `TypeError` inside `str.replace` when the
first real token occurs in some value; that exception is caught by line 145
and also falls through. -/
def handle401 (env : Env) (real : Str) (hs2 : Headers) (req1 : OutboundRequest)
    (h1 : Headers) (b1 : Str) : Result :=
  if env.refreshRaises then relayFirst h1 b1 [req1]
  else
    match get_real_oauth_token env.fetch2 with
    | none => relayFirst h1 b1 [req1]
    | some fresh =>
      if jsonTruthy fresh = false then relayFirst h1 b1 [req1]
      else
        match fresh with
        | .str f =>
          if f == real then relayFirst h1 b1 [req1]
          else doRetry env (retrySub real f hs2) req1 h1 b1
        | _ =>
          if hs2.any (fun nv => containsSub real nv.2) then relayFirst h1 b1 [req1]
          else doRetry env hs2 req1 h1 b1

/-- The first `urlopen` and its dispatch (lines 96-160): transport error →
502 via `send_error`; 2xx → relay; 401 → refresh-and-retry machinery;
any other status → relay the `HTTPError` response. -/
def forwardFirst (env : Env) (real : Str) (hs2 : Headers) : Result :=
  let req1 : OutboundRequest := ⟨env.method, env.path, hs2, env.inBody⟩
  match env.upstream1 with
  | .transport => ⟨.reply 502 [] errBadGateway, [req1], 0⟩
  | .http s hd b =>
    if is2xx s then ⟨.reply s (stripHopByHop hd) b, [req1], 0⟩
    else if s == 401 then handle401 env real hs2 req1 hd b
    else ⟨.reply s (stripHopByHop hd) b, [req1], 0⟩

/-- Lines 74-104 after a truthy string token was fetched: substitute, fail
closed with a 500 if no placeholder was found, fix the headers, forward. -/
def afterToken (env : Env) (real : Str) : Result :=
  if (substituteHeaders real env.inHeaders).2 = false then
    ⟨.reply 500 [] errNoDummy, [], 0⟩
  else
    forwardFirst env real (fixHeaders (substituteHeaders real env.inHeaders).1)

/-- `handle_request` (lines 65-160).  A falsy fetched token (absent, `None`,
or empty/zero-like) yields the 500 of line 71.  A truthy token that is not a
string makes line 83 raise an uncaught `TypeError` as soon as some header
value contains a dummy token (the substitution loop is outside every
`try`); with no dummy present the loop performs no replacement and the
fail-closed 500 of line 88 is sent. -/
def handle_request (env : Env) : Result :=
  match get_real_oauth_token env.fetch1 with
  | none => ⟨.reply 500 [] errNoCreds, [], 0⟩
  | some tok =>
    if jsonTruthy tok = false then ⟨.reply 500 [] errNoCreds, [], 0⟩
    else
      match tok with
      | .str real => afterToken env real
      | _ =>
        if anyDummyIn env.inHeaders then ⟨.crash, [], 0⟩
        else ⟨.reply 500 [] errNoDummy, [], 0⟩

/- ### Header-set lemmas -/

/-- An outbound request header key is neither the exact string
`Content-Length` nor the exact string `Connection`. -/
def reqKeyOk (nv : Str × Str) : Bool :=
  (nv.1 != ("Content-Length").data) && (nv.1 != ("Connection").data)

theorem mem_popKey {k : Str} {hs : Headers} {nv : Str × Str}
    (h : nv ∈ popKey k hs) : nv ∈ hs ∧ nv.1 ≠ k := by
  have h2 := List.mem_filter.mp h
  refine ⟨h2.1, ?_⟩
  simpa using h2.2

theorem mem_setKey {k v : Str} {nv : Str × Str} :
    ∀ {hs : Headers}, nv ∈ setKey k v hs → nv = (k, v) ∨ nv ∈ hs := by
  intro hs
  induction hs with
  | nil => intro h; simpa [setKey] using h
  | cons a t ih =>
    intro h
    simp only [setKey] at h
    by_cases ha : (a.1 == k) = true
    · rw [if_pos ha] at h
      rcases List.mem_cons.mp h with h | h
      · exact Or.inl h
      · exact Or.inr (List.mem_cons_of_mem _ h)
    · rw [if_neg ha] at h
      rcases List.mem_cons.mp h with h | h
      · exact Or.inr (by simp [h])
      · rcases ih h with h | h
        · exact Or.inl h
        · exact Or.inr (List.mem_cons_of_mem _ h)

theorem fixHeaders_clean (hs : Headers) : (fixHeaders hs).all reqKeyOk = true := by
  rw [List.all_eq_true]
  intro nv hmem
  rcases mem_setKey hmem with h | h
  · rw [h]; rfl
  · rcases mem_popKey h with ⟨h2, hconn⟩
    rcases mem_popKey h2 with ⟨_, hcl⟩
    simp [reqKeyOk, hcl, hconn]

theorem retrySub_clean {hs : Headers} (real fresh : Str)
    (h : hs.all reqKeyOk = true) : (retrySub real fresh hs).all reqKeyOk = true := by
  rw [List.all_eq_true] at h ⊢
  intro nv hmem
  rcases List.mem_map.mp hmem with ⟨a, ha, rfl⟩
  exact h a ha

theorem stripHopByHop_clean (hs : Headers) :
    (stripHopByHop hs).all keyClean = true := by
  rw [List.all_eq_true]
  intro nv hmem
  exact (List.mem_filter.mp hmem).2

/- ### Shape lemmas for the retry controller -/

theorem doRetry_clean (env : Env) (hs3 : Headers) (req1 : OutboundRequest)
    (h1 : Headers) (b1 : Str)
    (hh3 : hs3.all reqKeyOk = true) (hr1 : req1.reqHeaders.all reqKeyOk = true) :
    (doRetry env hs3 req1 h1 b1).outcome.headersOf.all keyClean = true ∧
    (doRetry env hs3 req1 h1 b1).forwarded.all
      (fun r => r.reqHeaders.all reqKeyOk) = true := by
  unfold doRetry
  cases env.upstream2 with
  | transport =>
    simp [relayFirst, Outcome.headersOf, stripHopByHop_clean, hh3, hr1]
  | http s2 h2 b2 =>
    by_cases h : is2xx s2 = true <;>
      simp [relayFirst, Outcome.headersOf, h, stripHopByHop_clean, hh3, hr1]

theorem handle401_clean (env : Env) (real : Str) (hs2 : Headers)
    (req1 : OutboundRequest) (h1 : Headers) (b1 : Str)
    (hh : hs2.all reqKeyOk = true) (hr1 : req1.reqHeaders.all reqKeyOk = true) :
    (handle401 env real hs2 req1 h1 b1).outcome.headersOf.all keyClean = true ∧
    (handle401 env real hs2 req1 h1 b1).forwarded.all
      (fun r => r.reqHeaders.all reqKeyOk) = true := by
  unfold handle401
  split
  · simp [relayFirst, Outcome.headersOf, stripHopByHop_clean, hr1]
  · split
    · simp [relayFirst, Outcome.headersOf, stripHopByHop_clean, hr1]
    · split
      · simp [relayFirst, Outcome.headersOf, stripHopByHop_clean, hr1]
      · split
        · split
          · simp [relayFirst, Outcome.headersOf, stripHopByHop_clean, hr1]
          · exact doRetry_clean env _ req1 h1 b1 (retrySub_clean real _ hh) hr1
        · split
          · simp [relayFirst, Outcome.headersOf, stripHopByHop_clean, hr1]
          · exact doRetry_clean env _ req1 h1 b1 hh hr1

theorem forwardFirst_clean (env : Env) (real : Str) (hs2 : Headers)
    (hh : hs2.all reqKeyOk = true) :
    (forwardFirst env real hs2).outcome.headersOf.all keyClean = true ∧
    (forwardFirst env real hs2).forwarded.all
      (fun r => r.reqHeaders.all reqKeyOk) = true := by
  unfold forwardFirst
  cases env.upstream1 with
  | transport => simp [Outcome.headersOf, hh]
  | http s hd b =>
    by_cases h2 : is2xx s = true
    · simp [h2, Outcome.headersOf, stripHopByHop_clean, hh]
    · by_cases h4 : (s == 401) = true
      · simp only [h2, h4, Bool.false_eq_true, if_false, if_true]
        exact handle401_clean env real hs2 _ hd b hh hh
      · simp [h2, h4, Outcome.headersOf, stripHopByHop_clean, hh]

/- ### Count lemmas for the retry controller -/

theorem doRetry_count (env : Env) (hs3 : Headers) (req1 : OutboundRequest)
    (h1 : Headers) (b1 : Str) :
    (doRetry env hs3 req1 h1 b1).refreshCalls = 1 ∧
    (doRetry env hs3 req1 h1 b1).forwarded.length = 2 := by
  unfold doRetry
  cases env.upstream2 with
  | transport => simp [relayFirst]
  | http s2 h2 b2 => by_cases h : is2xx s2 = true <;> simp [relayFirst, h]

theorem handle401_count (env : Env) (real : Str) (hs2 : Headers)
    (req1 : OutboundRequest) (h1 : Headers) (b1 : Str) :
    (handle401 env real hs2 req1 h1 b1).refreshCalls = 1 ∧
    (handle401 env real hs2 req1 h1 b1).forwarded.length ≤ 2 := by
  unfold handle401
  split
  · simp [relayFirst]
  · split
    · simp [relayFirst]
    · split
      · simp [relayFirst]
      · split
        · split
          · simp [relayFirst]
          · exact ⟨(doRetry_count _ _ _ _ _).1, le_of_eq (doRetry_count _ _ _ _ _).2⟩
        · split
          · simp [relayFirst]
          · exact ⟨(doRetry_count _ _ _ _ _).1, le_of_eq (doRetry_count _ _ _ _ _).2⟩

theorem forwardFirst_count (env : Env) (real : Str) (hs2 : Headers) :
    (forwardFirst env real hs2).refreshCalls ≤ 1 ∧
    (forwardFirst env real hs2).forwarded.length ≤ 2 := by
  unfold forwardFirst
  cases env.upstream1 with
  | transport => simp
  | http s hd b =>
    by_cases h2 : is2xx s = true
    · simp [h2]
    · by_cases h4 : (s == 401) = true
      · simp only [h2, h4, Bool.false_eq_true, if_false, if_true]
        have h := handle401_count env real hs2 ⟨env.method, env.path, hs2, env.inBody⟩ hd b
        exact ⟨le_of_eq h.1, h.2⟩
      · simp [h2, h4]

/- ### Concrete environments used by counterexamples and witnesses -/

/-- A plausible real token. -/
def tokA : Str := ("sk-real-token-AAAA").data

/-- A second, different real token (the refreshed one). -/
def tokB : Str := ("sk-real-token-BBBB").data

/-- A credential process run whose output is the well-formed record holding
`tok` as the access token. -/
def behWith (tok : Json) : SubprocBehavior :=
  .ran 0 true (.ok (.obj [(("claudeAiOauth").data, .obj [(("accessToken").data, tok)])]))

/-- An inbound header set carrying the placeholder in an Authorization
value. -/
def dummyHeaders : Headers :=
  [(("Authorization").data, ("Bearer ").data ++ DUMMY)]

/-- A baseline environment: placeholder present, credentials available. -/
def baseEnv : Env :=
  { method := ("POST").data
    path := ("/v1/messages").data
    inHeaders := dummyHeaders
    inBody := ("x").data
    fetch1 := behWith (.str tokA)
    refreshRaises := false
    fetch2 := behWith (.str tokA)
    upstream1 := .http 200 [] (("ok").data)
    upstream2 := .transport }

/- ### Claim C1 -/

/-- Claim C1 as stated is false: with the real token equal to the
placeholder itself (the claim quantifies over every real token string), the
substitution step reports a substitution and yet the resulting header value
still contains the placeholder — and the flag being set means the request
would be forwarded in that state. -/
theorem c1_substitution_counterexample :
    (substituteHeaders DUMMY dummyHeaders).2 = true ∧
    (substituteHeaders DUMMY dummyHeaders).1.any
      (fun nv => containsSub DUMMY nv.2) = true :=
  ⟨rfl, rfl⟩

/-- Claim C1, amended.  For every inbound header map and every real token
string, the substitution step rewrites each header value to the value with
every leftmost, non-overlapping occurrence of the placeholder replaced by
the real token (so every prior occurrence is replaced), and the
substitution-occurred flag is set iff some value contained the placeholder.
The original claim further asserts that no value contains the placeholder
afterwards; that does not hold for every real token string: a real token
that contains the placeholder, or that recombines with adjacent text into
it, leaves an occurrence behind. -/
theorem c1_substitution_characterization (real : Str) (hs : Headers) :
    (substituteHeaders real hs).1 =
      hs.map (fun nv => (nv.1, replaceAll DUMMY real nv.2)) ∧
    ((substituteHeaders real hs).2 = true ↔
      ∃ nv, nv ∈ hs ∧ containsSub DUMMY nv.2 = true) := by
  refine ⟨substituteHeaders_fst real hs, ?_⟩
  rw [substituteHeaders_snd]
  simp [anyDummyIn, DUMMY_TOKENS]

/- ### Claim C2 -/

/-- Claim C2: if no inbound header value contains any known placeholder
token, the proxy performs zero upstream calls (and zero refresher
invocations) and answers the client with a 500 response — regardless of
what the credential fetch returned. -/
theorem c2_fail_closed_no_placeholder (env : Env)
    (h : anyDummyIn env.inHeaders = false) :
    (handle_request env).outcome.statusOf = some 500 ∧
    (handle_request env).forwarded = [] ∧
    (handle_request env).refreshCalls = 0 := by
  unfold handle_request
  split
  · exact ⟨rfl, rfl, rfl⟩
  · split
    · exact ⟨rfl, rfl, rfl⟩
    · split
      · unfold afterToken
        rw [substituteHeaders_snd, h]
        exact ⟨rfl, rfl, rfl⟩
      · rw [h]
        exact ⟨rfl, rfl, rfl⟩

/-- An inbound request with no placeholder anywhere. -/
def c2Env : Env :=
  { baseEnv with inHeaders := [(("Accept").data, ("application/json").data)] }

theorem c2_fail_closed_witness :
    anyDummyIn c2Env.inHeaders = false ∧
    ((handle_request c2Env).outcome.statusOf = some 500 ∧
     (handle_request c2Env).forwarded = [] ∧
     (handle_request c2Env).refreshCalls = 0) :=
  ⟨rfl, c2_fail_closed_no_placeholder c2Env rfl⟩

/- ### Claim C3 -/

/-- Claim C3: for every client request — whatever the credential source,
the refresher, and the upstream do — the proxy invokes the Credential
Refresher at most once and issues at most two upstream forwarding calls. -/
theorem c3_single_retry_bound (env : Env) :
    (handle_request env).refreshCalls ≤ 1 ∧
    (handle_request env).forwarded.length ≤ 2 := by
  unfold handle_request
  split
  · simp
  · split
    · simp
    · split
      · unfold afterToken
        split
        · simp
        · exact forwardFirst_count env _ _
      · split <;> simp

/- ### Reduction equations for the main paths -/

theorem handle_request_str (env : Env) (real : Str)
    (hTok : get_real_oauth_token env.fetch1 = some (Json.str real))
    (htr : jsonTruthy (Json.str real) = true) :
    handle_request env = afterToken env real := by
  unfold handle_request
  rw [hTok]
  simp [htr]

theorem afterToken_forward (env : Env) (real : Str)
    (hDummy : anyDummyIn env.inHeaders = true) :
    afterToken env real =
      forwardFirst env real (fixHeaders (substituteHeaders real env.inHeaders).1) := by
  unfold afterToken
  rw [substituteHeaders_snd, hDummy]
  simp

theorem forwardFirst_401 (env : Env) (real : Str) (hs2 h1 : Headers) (b1 : Str)
    (hUp : env.upstream1 = .http 401 h1 b1) :
    forwardFirst env real hs2 =
      handle401 env real hs2 ⟨env.method, env.path, hs2, env.inBody⟩ h1 b1 := by
  unfold forwardFirst
  rw [hUp]
  norm_num [is2xx]

theorem handle401_same (env : Env) (real : Str) (hs2 : Headers)
    (req1 : OutboundRequest) (h1 : Headers) (b1 : Str)
    (hRef : env.refreshRaises = false)
    (hTok2 : get_real_oauth_token env.fetch2 = some (Json.str real))
    (htr : jsonTruthy (Json.str real) = true) :
    handle401 env real hs2 req1 h1 b1 = relayFirst h1 b1 [req1] := by
  unfold handle401
  rw [hRef, hTok2]
  simp [htr]

theorem handle401_diff (env : Env) (real fresh : Str) (hs2 : Headers)
    (req1 : OutboundRequest) (h1 : Headers) (b1 : Str)
    (hRef : env.refreshRaises = false)
    (hTok2 : get_real_oauth_token env.fetch2 = some (Json.str fresh))
    (htr2 : jsonTruthy (Json.str fresh) = true)
    (hbe : (fresh == real) = false) :
    handle401 env real hs2 req1 h1 b1 =
      doRetry env (retrySub real fresh hs2) req1 h1 b1 := by
  unfold handle401
  rw [hRef, hTok2]
  simp [htr2, hbe]

/- ### Claim C4 -/

/-- A 401 first attempt whose post-refresh fetch yields the same token
again; the upstream would answer 200 to a retry. -/
def c4Env : Env :=
  { baseEnv with
    upstream1 := .http 401 [] (("e1").data)
    upstream2 := .http 200 [] (("ok2").data) }

/-- Claim C4 as stated is false: after the 401 and the refresh, the newly
fetched token equals the first token, the refresh and fetch both succeed,
and yet no second forwarding attempt is performed — only one upstream call
happens and the first 401 response is relayed. -/
theorem c4_unchanged_token_counterexample :
    (handle_request c4Env).refreshCalls = 1 ∧
    (handle_request c4Env).forwarded.length = 1 ∧
    ¬(handle_request c4Env).forwarded.length = 2 ∧
    (handle_request c4Env).outcome = .reply 401 [] (("e1").data) := by
  refine ⟨rfl, rfl, by decide, rfl⟩

/-- Claim C4, amended.  After a 401 and a refresh, the second forwarding
attempt is performed only when the freshly fetched token is truthy and
differs from the first token (line 118 tests `fresh_token and fresh_token
!= real_token`).  When the fresh token equals the first token, the retry is
skipped: exactly one upstream call is made, the refresher was invoked once,
and the first attempt's 401 response is relayed. -/
theorem c4_unchanged_token_no_retry (env : Env) (real : Str)
    (h1 : Headers) (b1 : Str)
    (hTok : get_real_oauth_token env.fetch1 = some (Json.str real))
    (hNe : real ≠ [])
    (hDummy : anyDummyIn env.inHeaders = true)
    (hUp : env.upstream1 = .http 401 h1 b1)
    (hRef : env.refreshRaises = false)
    (hTok2 : get_real_oauth_token env.fetch2 = some (Json.str real)) :
    (handle_request env).forwarded.length = 1 ∧
    (handle_request env).refreshCalls = 1 ∧
    (handle_request env).outcome = .reply 401 (stripHopByHop h1) b1 := by
  have htr : jsonTruthy (Json.str real) = true := by
    cases real with
    | nil => exact absurd rfl hNe
    | cons c t => rfl
  rw [handle_request_str env real hTok htr, afterToken_forward env real hDummy,
    forwardFirst_401 env real _ h1 b1 hUp,
    handle401_same env real _ _ h1 b1 hRef hTok2 htr]
  exact ⟨rfl, rfl, rfl⟩

theorem c4_unchanged_token_no_retry_witness :
    get_real_oauth_token c4Env.fetch1 = some (Json.str tokA) ∧
    tokA ≠ [] ∧
    anyDummyIn c4Env.inHeaders = true ∧
    c4Env.upstream1 = .http 401 [] (("e1").data) ∧
    c4Env.refreshRaises = false ∧
    get_real_oauth_token c4Env.fetch2 = some (Json.str tokA) ∧
    ((handle_request c4Env).forwarded.length = 1 ∧
     (handle_request c4Env).refreshCalls = 1 ∧
     (handle_request c4Env).outcome = .reply 401 (stripHopByHop []) (("e1").data)) :=
  ⟨rfl, by decide, rfl, rfl, rfl, rfl,
    c4_unchanged_token_no_retry c4Env tokA [] (("e1").data) rfl (by decide) rfl rfl
      rfl rfl⟩

/- ### Claim C5 -/

/-- A 401 first attempt, then a successful refresh to a different token,
and a retry that the upstream answers with 404. -/
def c5Env : Env :=
  { baseEnv with
    fetch2 := behWith (.str tokB)
    upstream1 := .http 401 [] (("e1").data)
    upstream2 := .http 404 [] (("b2").data) }

/-- Claim C5 as stated is false: the second forwarding attempt is made and
produces a 404 response, yet the response relayed to the client is the
FIRST attempt's 401 response (status and body), not the retry's 404. -/
theorem c5_retry_outcome_counterexample :
    (handle_request c5Env).forwarded.length = 2 ∧
    (handle_request c5Env).outcome = .reply 401 [] (("e1").data) ∧
    ¬(handle_request c5Env).outcome = .reply 404 [] (("b2").data) := by
  refine ⟨rfl, rfl, by decide⟩

/-- Claim C5, amended.  When a second forwarding attempt is made after a
refresh, only a 2xx outcome of that second attempt is relayed to the
client; a non-2xx status or a transport error during the retry is swallowed
by the `except Exception: pass` of line 145 and the FIRST attempt's 401
response (status, stripped headers, body) is relayed instead. -/
theorem c5_retry_outcome_amended (env : Env) (real fresh : Str)
    (h1 : Headers) (b1 : Str)
    (hTok : get_real_oauth_token env.fetch1 = some (Json.str real))
    (hNe : real ≠ [])
    (hDummy : anyDummyIn env.inHeaders = true)
    (hUp : env.upstream1 = .http 401 h1 b1)
    (hRef : env.refreshRaises = false)
    (hTok2 : get_real_oauth_token env.fetch2 = some (Json.str fresh))
    (hNe2 : fresh ≠ [])
    (hDiff : fresh ≠ real) :
    (handle_request env).forwarded.length = 2 ∧
    (handle_request env).refreshCalls = 1 ∧
    (handle_request env).outcome =
      (match env.upstream2 with
       | .http s2 h2 b2 =>
         if is2xx s2 then Outcome.reply s2 (stripHopByHop h2) b2
         else Outcome.reply 401 (stripHopByHop h1) b1
       | .transport => Outcome.reply 401 (stripHopByHop h1) b1) := by
  have htr : jsonTruthy (Json.str real) = true := by
    cases real with
    | nil => exact absurd rfl hNe
    | cons c t => rfl
  have htr2 : jsonTruthy (Json.str fresh) = true := by
    cases fresh with
    | nil => exact absurd rfl hNe2
    | cons c t => rfl
  have hbe : (fresh == real) = false := by
    simpa using hDiff
  rw [handle_request_str env real hTok htr, afterToken_forward env real hDummy,
    forwardFirst_401 env real _ h1 b1 hUp,
    handle401_diff env real fresh _ _ h1 b1 hRef hTok2 htr2 hbe]
  unfold doRetry
  cases env.upstream2 with
  | transport => exact ⟨rfl, rfl, rfl⟩
  | http s2 h2 b2 =>
    by_cases h2xx : is2xx s2 = true
    · simp [h2xx, relayFirst]
    · simp [h2xx, relayFirst]

theorem c5_retry_outcome_amended_witness :
    get_real_oauth_token c5Env.fetch1 = some (Json.str tokA) ∧
    tokA ≠ [] ∧
    anyDummyIn c5Env.inHeaders = true ∧
    c5Env.upstream1 = .http 401 [] (("e1").data) ∧
    c5Env.refreshRaises = false ∧
    get_real_oauth_token c5Env.fetch2 = some (Json.str tokB) ∧
    tokB ≠ [] ∧
    tokB ≠ tokA ∧
    ((handle_request c5Env).forwarded.length = 2 ∧
     (handle_request c5Env).refreshCalls = 1 ∧
     (handle_request c5Env).outcome = .reply 401 (stripHopByHop []) (("e1").data)) :=
  ⟨rfl, by decide, rfl, rfl, rfl, rfl, by decide, by decide,
    c5_retry_outcome_amended c5Env tokA tokB [] (("e1").data) rfl (by decide) rfl rfl
      rfl rfl (by decide) (by decide)⟩

/- ### Claim C6 -/

/-- An inbound request whose hop-by-hop header is spelled in lower case. -/
def c6Env : Env :=
  { baseEnv with
    inHeaders := dummyHeaders ++ [(("connection").data, ("keep-alive").data)] }

/-- Claim C6 as stated is false on the request side: the source drops only
the exactly-cased keys `Content-Length` and `Connection` from the Python
dict (lines 92-93), so an inbound header named `connection` (lower case)
survives into the outbound upstream request — here the forwarded request
contains a header whose case-insensitive name is `connection`. -/
theorem c6_hop_by_hop_counterexample :
    (handle_request c6Env).forwarded.any
      (fun r => r.reqHeaders.any
        (fun nv => lowerStr nv.1 == ("connection").data)) = true :=
  rfl

/-- Claim C6, amended.  Response side (as claimed): no header of any relayed
response has a name that case-insensitively equals `Connection` or
`Transfer-Encoding`.  Request side (weakened to what the code does): no
outbound upstream request header has a name that exactly equals the strings
`Content-Length` or `Connection`; inbound spellings with other casing are
not dropped. -/
theorem c6_hop_by_hop_amended (env : Env) :
    (handle_request env).outcome.headersOf.all keyClean = true ∧
    (handle_request env).forwarded.all
      (fun r => r.reqHeaders.all reqKeyOk) = true := by
  unfold handle_request
  split
  · exact ⟨rfl, rfl⟩
  · split
    · exact ⟨rfl, rfl⟩
    · split
      · unfold afterToken
        split
        · exact ⟨rfl, rfl⟩
        · exact forwardFirst_clean env _ _ (fixHeaders_clean _)
      · split
        · exact ⟨rfl, rfl⟩
        · exact ⟨rfl, rfl⟩

/- ### Claim C7 -/

/-- Claim C7: a first-attempt upstream response with status 200, 404, 500,
or 403 is relayed with exactly that status and the upstream body unchanged,
with zero refresher invocations and exactly one upstream call. -/
theorem c7_status_passthrough (env : Env) (real : Str) (s : Nat)
    (hd : Headers) (b : Str)
    (hTok : get_real_oauth_token env.fetch1 = some (Json.str real))
    (hNe : real ≠ [])
    (hDummy : anyDummyIn env.inHeaders = true)
    (hUp : env.upstream1 = .http s hd b)
    (hS : s ∈ ([200, 404, 500, 403] : List Nat)) :
    (handle_request env).outcome = .reply s (stripHopByHop hd) b ∧
    (handle_request env).forwarded.length = 1 ∧
    (handle_request env).refreshCalls = 0 := by
  have htr : jsonTruthy (Json.str real) = true := by
    cases real with
    | nil => exact absurd rfl hNe
    | cons c t => rfl
  rw [handle_request_str env real hTok htr, afterToken_forward env real hDummy]
  unfold forwardFirst
  rw [hUp]
  simp only [List.mem_cons, List.not_mem_nil, or_false] at hS
  rcases hS with rfl | rfl | rfl | rfl <;> exact ⟨rfl, rfl, rfl⟩

/-- A 404 first attempt with available credentials and the placeholder
present. -/
def c7Env : Env :=
  { baseEnv with upstream1 := .http 404 [] (("nf").data) }

theorem c7_status_passthrough_witness :
    get_real_oauth_token c7Env.fetch1 = some (Json.str tokA) ∧
    tokA ≠ [] ∧
    anyDummyIn c7Env.inHeaders = true ∧
    c7Env.upstream1 = .http 404 [] (("nf").data) ∧
    (404 : Nat) ∈ ([200, 404, 500, 403] : List Nat) ∧
    ((handle_request c7Env).outcome = .reply 404 (stripHopByHop []) (("nf").data) ∧
     (handle_request c7Env).forwarded.length = 1 ∧
     (handle_request c7Env).refreshCalls = 0) :=
  ⟨rfl, by decide, rfl, rfl, by decide,
    c7_status_passthrough c7Env tokA 404 [] (("nf").data) rfl (by decide) rfl rfl
      (by decide)⟩

/- ### Claim C8 -/

/-- Claim C8: when the Credential Source adapter signals unavailable, the
proxy answers 500 and performs zero upstream calls and zero refresher
invocations. -/
theorem c8_credential_unavailable (env : Env)
    (h : get_real_oauth_token env.fetch1 = none) :
    (handle_request env).outcome.statusOf = some 500 ∧
    (handle_request env).forwarded = [] ∧
    (handle_request env).refreshCalls = 0 := by
  unfold handle_request
  rw [h]
  exact ⟨rfl, rfl, rfl⟩

/-- The credential process timing out. -/
def c8Env : Env :=
  { baseEnv with fetch1 := .timeout }

theorem c8_credential_unavailable_witness :
    get_real_oauth_token c8Env.fetch1 = none ∧
    ((handle_request c8Env).outcome.statusOf = some 500 ∧
     (handle_request c8Env).forwarded = [] ∧
     (handle_request c8Env).refreshCalls = 0) :=
  ⟨rfl, c8_credential_unavailable c8Env rfl⟩

/- ### Claim C9 -/

/-- Whether an adapter result is a token string or the unavailable signal,
as claim C9 asserts it always is. -/
def isStrOrNone : Option Json → Bool
  | none => true
  | some (.str _) => true
  | some _ => false

/-- A credential process whose well-formed output carries a JSON number in
the access-token field. -/
def behNum : SubprocBehavior := behWith (.num 42)

/-- Claim C9 as stated is false: on a successful run whose parsed record
holds the number 42 in the access-token field, `get_real_oauth_token`
returns that number — neither a token string nor the unavailable signal. -/
theorem c9_token_type_counterexample :
    get_real_oauth_token behNum = some (Json.num 42) ∧
    isStrOrNone (get_real_oauth_token behNum) = false :=
  ⟨rfl, rfl⟩

/-- The record the adapter extracts the token from, when the happy path is
taken: a clean run (exit 0, non-empty output) with parseable output. -/
def parsedOk : SubprocBehavior → Option Json
  | .timeout => none
  | .ran rc ne p =>
    if rc == 0 && ne then
      match p with
      | .ok j => some j
      | .error _ => none
    else none

/-- Claim C9, amended.  For every behavior of the external credential
process, `get_real_oauth_token` returns without propagating an exception,
and its result is either the unavailable signal or exactly the
`accessToken` member of the `claudeAiOauth` member of the parsed output — a
JSON value of any type, not necessarily a string.  Every error condition
(raised call, non-zero exit, empty output, parse failure, wrong shapes)
yields the unavailable signal. -/
theorem c9_adapter_totality_amended (b : SubprocBehavior) :
    get_real_oauth_token b = none ∨
    ∃ creds oauth v, parsedOk b = some creds ∧
      pyGetMember creds (("claudeAiOauth").data) = .ok (some oauth) ∧
      pyGetMember oauth (("accessToken").data) = .ok (some v) ∧
      get_real_oauth_token b = some v := by
  cases b with
  | timeout => exact Or.inl rfl
  | ran rc ne p =>
    by_cases hc : (rc == 0 && ne) = true
    · cases p with
      | error e => exact Or.inl (by simp [get_real_oauth_token, hc])
      | ok creds =>
        cases hm : pyGetMember creds (("claudeAiOauth").data) with
        | error e => exact Or.inl (by simp [get_real_oauth_token, hc, hm])
        | ok o =>
          cases o with
          | none => exact Or.inl (by simp [get_real_oauth_token, hc, hm])
          | some oauth =>
            cases hm2 : pyGetMember oauth (("accessToken").data) with
            | error e => exact Or.inl (by simp [get_real_oauth_token, hc, hm, hm2])
            | ok o2 =>
              cases o2 with
              | none => exact Or.inl (by simp [get_real_oauth_token, hc, hm, hm2])
              | some v =>
                refine Or.inr ⟨creds, oauth, v, ?_, hm, hm2, ?_⟩
                · simp [parsedOk, hc]
                · simp [get_real_oauth_token, hc, hm, hm2]
    · exact Or.inl (by simp [get_real_oauth_token, hc])

/- ### Claim C10 -/

/-- Claim C10: when the fetched credential record is well-formed but its
access-token field is the empty string, the proxy treats it as
credential-unavailable: it answers 500 and performs zero upstream calls and
zero refresher invocations (line 70 tests Python truthiness, and the empty
string is falsy). -/
theorem c10_empty_token_unavailable (env : Env)
    (h : get_real_oauth_token env.fetch1 = some (Json.str [])) :
    (handle_request env).outcome.statusOf = some 500 ∧
    (handle_request env).forwarded = [] ∧
    (handle_request env).refreshCalls = 0 := by
  unfold handle_request
  rw [h]
  exact ⟨rfl, rfl, rfl⟩

/-- A well-formed credential record whose access token is the empty
string. -/
def c10Env : Env :=
  { baseEnv with fetch1 := behWith (.str []) }

theorem c10_empty_token_witness :
    get_real_oauth_token c10Env.fetch1 = some (Json.str []) ∧
    ((handle_request c10Env).outcome.statusOf = some 500 ∧
     (handle_request c10Env).forwarded = [] ∧
     (handle_request c10Env).refreshCalls = 0) :=
  ⟨rfl, c10_empty_token_unavailable c10Env rfl⟩

end ClaudeAuthProxy
